import Mathlib

/-!
Verification development for the natural-language-to-SQL assistant backend.

The TypeScript services are shallowly embedded as pure Lean functions.
External collaborators (the language-model gateway, the MySQL driver, the
Redis cache backend, the audit-log sink) enter as oracle functions inside
environment structures: each oracle gives the outcome of one awaited call,
and `Except String` models a thrown error by its message string.  Wall-clock
time is modeled by giving every external call a duration supplied by the
environment; a `Date.now()` difference in the source becomes the sum of the
durations of the calls awaited in between.  JavaScript strings are modeled
by `String`, with case folding and whitespace restricted to their ASCII
behaviour, which covers every string the services construct.
-/

/-- Tests whether `pat` is a prefix of `s`, character by character. -/
def listStartsWith : List Char → List Char → Bool
  | _, [] => true
  | [], _ :: _ => false
  | a :: as, b :: bs => a = b && listStartsWith as bs

/-- Case-insensitive (ASCII) variant of `listStartsWith`; `pat` is given already lowered. -/
def listStartsWithCI (s pat : List Char) : Bool :=
  listStartsWith (s.map Char.toLower) pat

/-- Substring test on character lists; models `String.prototype.includes`. -/
def lcontains : List Char → List Char → Bool
  | [], pat => pat.isEmpty
  | c :: rest, pat => listStartsWith (c :: rest) pat || lcontains rest pat

/-- Substring test on strings; models `String.prototype.includes`. -/
def stringContains (s pat : String) : Bool :=
  lcontains s.data pat.data

/-- Drops leading JavaScript whitespace (ASCII approximation of the regex class). -/
def dropWhileWs (l : List Char) : List Char :=
  l.dropWhile Char.isWhitespace

/-- Trims whitespace from both ends; models `String.prototype.trim`. -/
def trimChars (l : List Char) : List Char :=
  ((dropWhileWs l).reverse.dropWhile Char.isWhitespace).reverse

/-- String-level trim; models `String.prototype.trim`. -/
def jsTrim (s : String) : String :=
  String.mk (trimChars s.data)

/-- ASCII lowering of a whole string; models `String.prototype.toLowerCase` on ASCII input. -/
def lowerStr (s : String) : String :=
  String.mk (s.data.map Char.toLower)

/-- Joins strings with a separator; models `Array.prototype.join`. -/
def joinWith (sep : String) : List String → String
  | [] => ""
  | [x] => x
  | x :: y :: ys => x ++ sep ++ joinWith sep (y :: ys)

/-- The backtick character, used by the markdown fence scanner. -/
def fenceChars : List Char := [Char.ofNat 96, Char.ofNat 96, Char.ofNat 96]

/-- Splits a character list at the first markdown fence.  Returns the text
before the fence and the text after it, or `none` when no fence occurs.
Models the scan of the regex in `extractSQLQuery` (src/utils/sql-utils.ts). -/
def splitAtFence : List Char → Option (List Char × List Char)
  | [] => none
  | c :: rest =>
    if listStartsWith (c :: rest) fenceChars then
      some ([], (c :: rest).drop 3)
    else
      match splitAtFence rest with
      | some (pre, post) => some (c :: pre, post)
      | none => none

/-- Removes a leading case-insensitive `sql query:` / `query:` label followed by
whitespace; models the fallback `replace` in `extractSQLQuery`
(src/utils/sql-utils.ts lines 17-19). -/
def stripQueryLabel (text : String) : String :=
  let cs := text.data
  let low := cs.map Char.toLower
  if listStartsWith low "sql query:".data then String.mk (dropWhileWs (cs.drop 10))
  else if listStartsWith low "sql query".data then String.mk (dropWhileWs (cs.drop 9))
  else if listStartsWith low "query:".data then String.mk (dropWhileWs (cs.drop 6))
  else if listStartsWith low "query".data then String.mk (dropWhileWs (cs.drop 5))
  else text

/-- Embeds `extractSQLQuery` (src/utils/sql-utils.ts lines 8-20): the trimmed
content between the first pair of markdown fences, with an optional
case-insensitive `sql` tag after the opening fence dropped; otherwise the
input with a leading `sql query:` / `query:` label removed and trimmed. -/
def extractSQLQuery (text : String) : String :=
  match splitAtFence text.data with
  | some (_, afterFirst) =>
    match splitAtFence afterFirst with
    | some (inner, _) =>
      let inner2 := if listStartsWithCI inner "sql".data then inner.drop 3 else inner
      String.mk (trimChars inner2)
    | none => jsTrim (stripQueryLabel text)
  | none => jsTrim (stripQueryLabel text)

/-- The leading keywords accepted by `isValidSQL`, lowered. -/
def sqlKeywords : List String :=
  ["select", "insert", "update", "delete", "with", "show", "describe", "explain"]

/-- Embeds `isValidSQL` (src/utils/sql-utils.ts lines 25-33): non-blank and,
after leading whitespace, beginning with an allowed keyword (case-insensitive). -/
def isValidSQL (query : String) : Bool :=
  if (jsTrim query).data.isEmpty then false
  else
    let t := (dropWhileWs query.data).map Char.toLower
    sqlKeywords.any (fun k => listStartsWith t k.data)

/-- Embeds `isNoRelevantData` (src/utils/sql-utils.ts lines 38-41). -/
def isNoRelevantData (query : String) : Bool :=
  stringContains query "NO_RELEVANT_DATA" || stringContains (lowerStr query) "no relevant data"

/-- The error taxonomy of src/types/errors.ts (`DatabaseConnectionError`,
`SchemaRetrievalError`, `QueryExecutionError` with its offending statement,
`AIServiceError`), plus `other` for values that are none of those classes,
such as a rethrown audit-log insertion error. `CacheError` never crosses a
service boundary relevant here, so cache failures appear only as message
strings inside the cache utilities below. -/
inductive SQLAssistantError where
  | databaseConnection (msg : String)
  | schemaRetrieval (msg : String)
  | queryExecution (msg : String) (query : Option String)
  | aiService (msg : String)
  | other (msg : String)
  deriving DecidableEq

/-- The `message` property of the thrown error. -/
def SQLAssistantError.message : SQLAssistantError → String
  | .databaseConnection m => m
  | .schemaRetrieval m => m
  | .queryExecution m _ => m
  | .aiService m => m
  | .other m => m

/-- True for the three error classes the orchestrator tests with `instanceof`
(src/services/sql-assistant/sql-assistant.service.ts lines 134-138 and 393-397). -/
def SQLAssistantError.isTyped : SQLAssistantError → Bool
  | .databaseConnection _ => true
  | .schemaRetrieval _ => true
  | .queryExecution _ _ => true
  | .aiService _ => false
  | .other _ => false

/-- One result row, as the MySQL driver returns it: column name to value,
a `none` value standing for SQL NULL; values are modeled by their string
rendering. -/
abbrev DbRow := List (String × Option String)

/-- Environment of one `QueryService` run.  `aiRespond` is the outcome of
`aiService.generateContent` on (system instruction, prompt): `.error m` is a
thrown `AIServiceError` with message `m`.  `dbExec` is the outcome of
`databaseService.query` on a statement: `.error m` is a driver error with
message `m`.  `businessRules` is the text `businessRuleService.formatForPrompt`
resolves to (that call never throws, see its embedding below).  The three
duration fields give the wall-clock time of each corresponding awaited call. -/
structure QueryEnv where
  aiRespond : String → String → Except String String
  aiDuration : String → String → Nat
  dbExec : String → Except String (List DbRow)
  dbDuration : String → Nat
  businessRules : String
  rulesDuration : Nat

/-- The user prompt built by `QueryService.generateSQLQuery`
(src/services/sql-assistant/schema.service.ts lines 180-194), including the
retry section present exactly when both the failed statement and its error
are non-empty. -/
def sqlPrompt (tableNames : List String) (schema userQuery chatHistory : String)
    (lastGeneratedQuery lastError : Option String) : String :=
  let retryPart :=
    match lastGeneratedQuery, lastError with
    | some q, some e =>
      if q ≠ "" && e ≠ "" then "Last Generated Query : " ++ q ++ " \n Last Error : " ++ e
      else ""
    | _, _ => ""
  "Table Names: " ++ joinWith ", " tableNames ++ "\n\nSchema:\n" ++ schema ++
    "\n\nChat History:\n" ++ chatHistory ++ "\n\nQuestion: " ++ userQuery ++ "\n\n" ++
    retryPart ++ "\n"

/-- The system instruction of `QueryService.generateSQLQuery`
(src/services/sql-assistant/schema.service.ts lines 196-207). -/
def sqlSystemInstruction (businessRules : String) : String :=
  "Required Output: SQL Query String\n\nInstructions:\n1. Generate a MySQL query that answers the user's question based on the provided schema\n2. Retrieve all relevant information to provide complete context\n3. Return ONLY the SQL query with no titles, explanations, or markdown\n4. For text field comparisons, use LOWER() function and wildcards: LOWER(field) LIKE '%value%'\n5. Use backticks for table and column names to handle reserved words\n6. If the question is unrelated to the schema, respond with: \"NO_RELEVANT_DATA\"\n7. Optimize for readability with proper formatting\n8. Use JOINs where appropriate if relationships are evident\n" ++ businessRules

/-- Embeds `QueryService.generateSQLQuery`
(src/services/sql-assistant/schema.service.ts lines 167-232): one gateway
call at temperature 0; the extracted statement; the no-relevant-data
sentinel short-circuit; the leading-keyword validation raising a
`QueryExecutionError` carrying the offending text. -/
def QueryService.generateSQLQuery (env : QueryEnv) (tableNames : List String)
    (schema userQuery chatHistory : String)
    (lastGeneratedQuery lastError : Option String) : Except SQLAssistantError String :=
  let prompt := sqlPrompt tableNames schema userQuery chatHistory lastGeneratedQuery lastError
  match env.aiRespond (sqlSystemInstruction env.businessRules) prompt with
  | .error m => .error (.aiService m)
  | .ok response =>
    let sqlQuery := extractSQLQuery response
    if isNoRelevantData sqlQuery then .ok "NO_RELEVANT_DATA"
    else if !(isValidSQL sqlQuery) then
      .error (.queryExecution "Generated query is not valid SQL" (some sqlQuery))
    else .ok sqlQuery

/-- Wall-clock duration of one `generateSQLQuery` call: the business-rule
fetch plus the gateway call. -/
def QueryService.genDuration (env : QueryEnv) (tableNames : List String)
    (schema userQuery chatHistory : String)
    (lastGeneratedQuery lastError : Option String) : Nat :=
  env.rulesDuration +
    env.aiDuration (sqlSystemInstruction env.businessRules)
      (sqlPrompt tableNames schema userQuery chatHistory lastGeneratedQuery lastError)

/-- Embeds `QueryService.executeQuery`
(src/services/sql-assistant/schema.service.ts lines 237-249): a driver error
is wrapped into a `QueryExecutionError` carrying the statement. -/
def QueryService.executeQuery (env : QueryEnv) (sqlQuery : String) :
    Except SQLAssistantError (List DbRow) :=
  match env.dbExec sqlQuery with
  | .ok rows => .ok rows
  | .error m => .error (.queryExecution ("Query execution failed: " ++ m) (some sqlQuery))

/-- The record `generateAndExecute` resolves to. -/
structure ExecOutcome where
  sql : String
  rows : List DbRow
  executionTime : Nat
  deriving DecidableEq

/-- Embeds `QueryService.generateAndExecute`
(src/services/sql-assistant/schema.service.ts lines 254-280): generation,
sentinel short-circuit with zero rows and zero time, execution, a single
regeneration on execution failure passing the failed statement and the
caught message, execution of the regenerated statement without a further
retry.  `executionTime` is the `Date.now()` span opened just before the
first execution attempt and closed after the `try`/`catch`, hence on the
retry path it also covers the regeneration call.  The returned `sql` field
is the `sql` constant bound to the first generation. -/
def QueryService.generateAndExecute (env : QueryEnv) (tableNames : List String)
    (schema userQuery chatHistory : String) : Except SQLAssistantError ExecOutcome :=
  match QueryService.generateSQLQuery env tableNames schema userQuery chatHistory none none with
  | .error e => .error e
  | .ok sql =>
    if sql = "NO_RELEVANT_DATA" then .ok ⟨sql, [], 0⟩
    else
      match QueryService.executeQuery env sql with
      | .ok rows => .ok ⟨sql, rows, env.dbDuration sql⟩
      | .error e =>
        match QueryService.generateSQLQuery env tableNames schema userQuery chatHistory
            (some sql) (some e.message) with
        | .error e2 => .error e2
        | .ok sqlNew =>
          match QueryService.executeQuery env sqlNew with
          | .error e2 => .error e2
          | .ok rows =>
            .ok ⟨sql, rows,
              env.dbDuration sql +
                QueryService.genDuration env tableNames schema userQuery chatHistory
                  (some sql) (some e.message) +
                env.dbDuration sqlNew⟩

/-- A concrete run in which the first generated statement fails and the
regenerated one succeeds: the gateway answers `SELECT 2` exactly when the
prompt carries the retry section, the driver rejects `SELECT 1` with `boom`
and returns one row for any other statement. -/
def qenvRetry : QueryEnv where
  aiRespond := fun _ p =>
    if lcontains p.data "Last Generated Query".data then .ok "SELECT 2" else .ok "SELECT 1"
  aiDuration := fun _ _ => 7
  dbExec := fun s => if s = "SELECT 1" then .error "boom" else .ok [[("a", some "1")]]
  dbDuration := fun _ => 3
  businessRules := ""
  rulesDuration := 2

/-- Claim C1: in the run `qenvRetry`, the first execution of `SELECT 1` fails,
the regeneration (whose prompt carries the failed statement and its error)
yields `SELECT 2`, the retried execution succeeds — yet `generateAndExecute`
returns `sql = "SELECT 1"`, the failed first statement, together with the
rows only `SELECT 2` produces.  The claim says the result carries the
regenerated SQL; the source returns the constant `sql` bound to the first
generation (src/services/sql-assistant/schema.service.ts line 279). -/
theorem C1_retry_returns_first_sql :
    QueryService.executeQuery qenvRetry "SELECT 1" =
      .error (.queryExecution "Query execution failed: boom" (some "SELECT 1")) ∧
    QueryService.generateSQLQuery qenvRetry ["t"] "s" "q" ""
        (some "SELECT 1") (some "Query execution failed: boom") = .ok "SELECT 2" ∧
    QueryService.executeQuery qenvRetry "SELECT 2" = .ok [[("a", some "1")]] ∧
    QueryService.generateAndExecute qenvRetry ["t"] "s" "q" "" =
      .ok ⟨"SELECT 1", [[("a", some "1")]], 15⟩ :=
  ⟨rfl, rfl, rfl, rfl⟩

/-- A gateway that always answers the bare sentinel. -/
def qenvSentinel : QueryEnv where
  aiRespond := fun _ _ => .ok "NO_RELEVANT_DATA"
  aiDuration := fun _ _ => 7
  dbExec := fun _ => .ok []
  dbDuration := fun _ => 3
  businessRules := ""
  rulesDuration := 2

/-- Claim C4: whenever the model response to the generation prompt is such
that the extracted text contains the sentinel (in particular when the
response is exactly `NO_RELEVANT_DATA`), `generateAndExecute` returns
exactly `{sql := "NO_RELEVANT_DATA", rows := [], executionTime := 0}`, and
it does so for every possible database oracle — `executeQuery` is never
invoked. -/
theorem C4_sentinel_short_circuit (env : QueryEnv) (tableNames : List String)
    (schema userQuery chatHistory response : String)
    (hresp : env.aiRespond (sqlSystemInstruction env.businessRules)
      (sqlPrompt tableNames schema userQuery chatHistory none none) = .ok response)
    (hsent : isNoRelevantData (extractSQLQuery response) = true) :
    ∀ (d : String → Except String (List DbRow)) (t : String → Nat),
      QueryService.generateAndExecute
          { env with dbExec := d, dbDuration := t } tableNames schema userQuery chatHistory =
        .ok ⟨"NO_RELEVANT_DATA", [], 0⟩ := by
  intro d t
  unfold QueryService.generateAndExecute QueryService.generateSQLQuery
  simp only [hresp, hsent, if_true, ite_true]

/-- Witness for C4: the sentinel response short-circuits even against a
database oracle that always fails. -/
theorem C4_sentinel_short_circuit_witness :
    QueryService.generateAndExecute
        { qenvSentinel with dbExec := fun _ => .error "down", dbDuration := fun _ => 0 }
        ["t"] "s" "q" "" = .ok ⟨"NO_RELEVANT_DATA", [], 0⟩ :=
  C4_sentinel_short_circuit qenvSentinel ["t"] "s" "q" "" "NO_RELEVANT_DATA" rfl (by decide)
    (fun _ => .error "down") (fun _ => 0)

/-- Claim C6 counterexample: in the run `qenvRetry` the two executions take
3 time units each, yet `executionTime` is 15, because the span also covers
the 9 units of the regeneration call (business-rule fetch plus gateway
call) — the claim says no SQL-generation time is ever included. -/
theorem C6_counterexample_includes_regeneration :
    QueryService.generateAndExecute qenvRetry ["t"] "s" "q" "" =
      .ok ⟨"SELECT 1", [[("a", some "1")]], 15⟩ ∧
    qenvRetry.dbDuration "SELECT 1" + qenvRetry.dbDuration "SELECT 2" = 6 ∧
    QueryService.genDuration qenvRetry ["t"] "s" "q" ""
        (some "SELECT 1") (some "Query execution failed: boom") = 9 :=
  ⟨rfl, rfl, rfl⟩

/-- Claim C6, amended: on the no-retry path `executionTime` is the duration
of the single execution; on the retry path it is the duration of the failed
execution plus the regeneration call plus the retried execution — so it
never includes the initial generation, but on retry it does include the
regeneration. -/
theorem C6_amended_execution_time (env : QueryEnv) (tableNames : List String)
    (schema userQuery chatHistory sql : String)
    (hgen : QueryService.generateSQLQuery env tableNames schema userQuery chatHistory
      none none = .ok sql)
    (hns : sql ≠ "NO_RELEVANT_DATA") :
    (∀ rows, QueryService.executeQuery env sql = .ok rows →
      QueryService.generateAndExecute env tableNames schema userQuery chatHistory =
        .ok ⟨sql, rows, env.dbDuration sql⟩) ∧
    (∀ e sqlNew rowsNew, QueryService.executeQuery env sql = .error e →
      QueryService.generateSQLQuery env tableNames schema userQuery chatHistory
        (some sql) (some e.message) = .ok sqlNew →
      QueryService.executeQuery env sqlNew = .ok rowsNew →
      QueryService.generateAndExecute env tableNames schema userQuery chatHistory =
        .ok ⟨sql, rowsNew,
          env.dbDuration sql +
            QueryService.genDuration env tableNames schema userQuery chatHistory
              (some sql) (some e.message) +
            env.dbDuration sqlNew⟩) := by
  constructor
  · intro rows hexec
    unfold QueryService.generateAndExecute
    simp only [hgen, hexec, if_neg hns]
  · intro e sqlNew rowsNew hfail hregen hexec2
    unfold QueryService.generateAndExecute
    simp only [hgen, hfail, hregen, hexec2, if_neg hns]

/-- Witness for C6 (amended), on the retry path of `qenvRetry`. -/
theorem C6_amended_execution_time_witness :
    QueryService.generateAndExecute qenvRetry ["t"] "s" "q" "" =
      .ok ⟨"SELECT 1", [[("a", some "1")]],
        qenvRetry.dbDuration "SELECT 1" +
          QueryService.genDuration qenvRetry ["t"] "s" "q" ""
            (some "SELECT 1") (some "Query execution failed: boom") +
          qenvRetry.dbDuration "SELECT 2"⟩ :=
  (C6_amended_execution_time qenvRetry ["t"] "s" "q" "" "SELECT 1" rfl (by decide)).2
    (.queryExecution "Query execution failed: boom" (some "SELECT 1")) "SELECT 2"
    [[("a", some "1")]] rfl rfl rfl

/-- Matches the JavaScript regex dot (anything but a line terminator). -/
def jsDotMatches (c : Char) : Bool :=
  !(c = Char.ofNat 10 || c = Char.ofNat 13 || c.toNat = 8232 || c.toNat = 8233)

/-- The two values of the context-evaluation decision. -/
inductive CtxDecision where
  | sufficient
  | needMoreData
  deriving DecidableEq

/-- The decision as the upper-cased string the source stores. -/
def CtxDecision.render : CtxDecision → String
  | .sufficient => "SUFFICIENT"
  | .needMoreData => "NEED_MORE_DATA"

/-- Scan for the regex `DECISION:\s*(SUFFICIENT|NEED_MORE_DATA)` with the
case-insensitive flag (src/services/sql-assistant/context-evaluation.service.ts
line 81): at each position, the literal label, then the maximal whitespace
run, then one of the two alternatives (neither of which can begin inside the
whitespace run).  The captured alternative is returned upper-cased, as the
source does with `toUpperCase`. -/
def scanDecision : List Char → Option CtxDecision
  | [] => none
  | c :: rest =>
    if listStartsWithCI (c :: rest) "decision:".data then
      let after := dropWhileWs ((c :: rest).drop 9)
      if listStartsWithCI after "sufficient".data then some .sufficient
      else if listStartsWithCI after "need_more_data".data then some .needMoreData
      else scanDecision rest
    else scanDecision rest

/-- The suffix starting at the last character a JavaScript regex dot can
match, when one exists; used for the backtracking case of the `REASONING`
scan where everything after the label is whitespace. -/
def lastNonNewlineSuffix : List Char → Option (List Char)
  | [] => none
  | c :: rest =>
    match lastNonNewlineSuffix rest with
    | some suf => some suf
    | none => if jsDotMatches c then some (c :: rest) else none

/-- Scan for the regex `REASONING:\s*(.+)` with the case-insensitive flag
(src/services/sql-assistant/context-evaluation.service.ts line 82): at each
position, the literal label, then greedy whitespace backtracking just enough
for the dot-plus group to capture at least one non-line-terminator character
up to the end of its line. -/
def scanReasoning : List Char → Option (List Char)
  | [] => none
  | c :: rest =>
    if listStartsWithCI (c :: rest) "reasoning:".data then
      let after := (c :: rest).drop 10
      let wsLen := (after.takeWhile Char.isWhitespace).length
      if wsLen < after.length then
        some ((after.drop wsLen).takeWhile jsDotMatches)
      else
        match lastNonNewlineSuffix after with
        | some suf => some (suf.takeWhile jsDotMatches)
        | none => scanReasoning rest
    else scanReasoning rest

/-- Decision plus reasoning, the record `evaluateContext` resolves to. -/
structure ContextEvaluation where
  decision : CtxDecision
  reasoning : String
  deriving DecidableEq

/-- The evaluation together with the number of gateway calls the run made,
so that "without invoking the gateway" is a statement about the result. -/
structure CtxResult where
  evaluation : ContextEvaluation
  gatewayCalls : Nat
  deriving DecidableEq

/-- Environment of one context evaluation: the outcome of
`lightAiService.generateContent` on (system instruction, prompt); `.error m`
is a thrown `AIServiceError` with message `m`. -/
structure CtxEnv where
  aiRespond : String → String → Except String String

/-- The prompt built by `evaluateContext`
(src/services/sql-assistant/context-evaluation.service.ts lines 45-48). -/
def ctxPrompt (userQuery chatHistory : String) : String :=
  "Chat History:\n" ++ chatHistory ++ "\n\nCurrent User Query: " ++ userQuery

/-- The classification instruction of `evaluateContext`
(src/services/sql-assistant/context-evaluation.service.ts lines 50-72). -/
def ctxSystemInstruction : String :=
  "You are a context evaluator for a SQL assistant. Your job is to determine if the chat history contains enough information to answer the user's current query WITHOUT needing to fetch new data from the database.\n\nAnalyze the chat history and current query, then respond with ONLY ONE of these two options:\n\nSUFFICIENT - Use this if:\n- The chat history contains the specific data needed to answer the query\n- The query is asking for clarification, explanation, or reformatting of previous results\n- The query is a follow-up question about data already discussed\n- The query asks to \"show more details\", \"explain that\", \"what about X\" where X was in previous results\n\nNEED_MORE_DATA - Use this if:\n- The query asks for new data not present in chat history\n- The query requires filtering, aggregating, or querying data differently\n- The query asks about a different time period, category, or dimension\n- The query is the first question in the conversation\n- You're uncertain whether the history has enough context\n- If User Explicitly Asked to refetch data\n\nRequired Output Format:\nDECISION: [SUFFICIENT or NEED_MORE_DATA]\nREASONING: [Brief explanation of your decision]\n\nBe conservative - when in doubt, choose NEED_MORE_DATA."

/-- Embeds `ContextEvaluationService.evaluateContext`
(src/services/sql-assistant/context-evaluation.service.ts lines 32-109).
Empty or whitespace-only history answers immediately with zero gateway
calls; a gateway failure or an unparseable decision line yields the
conservative default; the whole body is a try/catch, so the function is
total — the call never raises. -/
def ContextEvaluationService.evaluateContext (env : CtxEnv)
    (userQuery chatHistory : String) : CtxResult :=
  if (jsTrim chatHistory).data.isEmpty then
    ⟨⟨.needMoreData, "No chat history available"⟩, 0⟩
  else
    match env.aiRespond ctxSystemInstruction (ctxPrompt userQuery chatHistory) with
    | .error m => ⟨⟨.needMoreData, "Error during evaluation: " ++ m⟩, 1⟩
    | .ok response =>
      match scanDecision response.data with
      | none => ⟨⟨.needMoreData, "Failed to parse evaluation response"⟩, 1⟩
      | some d =>
        let reasoning :=
          match scanReasoning response.data with
          | some cap => String.mk (trimChars cap)
          | none => "No reasoning provided"
        ⟨⟨d, reasoning⟩, 1⟩

/-- Claim C9: empty (or whitespace-only) history returns `NEED_MORE_DATA`
with zero gateway calls; a gateway failure returns `NEED_MORE_DATA` with the
error cause in the reasoning field; a response with no parseable `DECISION`
line returns `NEED_MORE_DATA` with the parse cause — and `evaluateContext`
is a total function, so it never raises. -/
theorem C9_evaluate_context_defaults (env : CtxEnv) (userQuery chatHistory : String) :
    ((jsTrim chatHistory).data.isEmpty = true →
      ContextEvaluationService.evaluateContext env userQuery chatHistory =
        ⟨⟨.needMoreData, "No chat history available"⟩, 0⟩) ∧
    (∀ m, (jsTrim chatHistory).data.isEmpty = false →
      env.aiRespond ctxSystemInstruction (ctxPrompt userQuery chatHistory) = .error m →
      ContextEvaluationService.evaluateContext env userQuery chatHistory =
        ⟨⟨.needMoreData, "Error during evaluation: " ++ m⟩, 1⟩) ∧
    (∀ r, (jsTrim chatHistory).data.isEmpty = false →
      env.aiRespond ctxSystemInstruction (ctxPrompt userQuery chatHistory) = .ok r →
      scanDecision r.data = none →
      ContextEvaluationService.evaluateContext env userQuery chatHistory =
        ⟨⟨.needMoreData, "Failed to parse evaluation response"⟩, 1⟩) := by
  refine ⟨fun h => ?_, fun m h hm => ?_, fun r h hr hscan => ?_⟩
  · simp only [ContextEvaluationService.evaluateContext, h, ite_true]
  · simp only [ContextEvaluationService.evaluateContext, h, hm, Bool.false_eq_true, ite_false]
  · simp only [ContextEvaluationService.evaluateContext, h, hr, hscan, Bool.false_eq_true,
      ite_false]

/-- Witness for C9: a gateway that always fails, consulted with empty
history, is never called and the conservative default is returned. -/
theorem C9_evaluate_context_defaults_witness :
    ContextEvaluationService.evaluateContext ⟨fun _ _ => .error "down"⟩ "q" "" =
      ⟨⟨.needMoreData, "No chat history available"⟩, 0⟩ :=
  (C9_evaluate_context_defaults ⟨fun _ _ => .error "down"⟩ "q" "").1 rfl

/-- Token-usage accounting as the provider reports it (`usageMetadata`). -/
structure TokenUsage where
  promptTokenCount : Option Nat
  candidatesTokenCount : Option Nat
  totalTokenCount : Option Nat
  cachedContentTokenCount : Option Nat
  deriving DecidableEq

/-- The gateway instance state: the single mutable `lastTokenUsage` field of
`AIService` (src/services/sql-assistant/ai.service.ts line 120). -/
structure AIState where
  lastTokenUsage : Option TokenUsage
  deriving DecidableEq

/-- A one-shot provider response: its text and its `usageMetadata`. -/
structure ProviderResponse where
  text : String
  usageMetadata : Option TokenUsage
  deriving DecidableEq

/-- Embeds `AIService.generateContent`
(src/services/sql-assistant/ai.service.ts lines 151-177) as a state
transition: on success the response usage overwrites `lastTokenUsage` and
the text is returned; on a provider failure an `AIServiceError` message is
raised and the state is unchanged. -/
def AIService.generateContent (st : AIState) (providerResult : Except String ProviderResponse) :
    Except String String × AIState :=
  match providerResult with
  | .ok r => (.ok r.text, { lastTokenUsage := r.usageMetadata })
  | .error m => (.error ("Failed to generate content: " ++ m), st)

/-- The arguments of one tool call, modeled opaquely as the key-value pairs
of the JSON object the provider delivers; the services pass them through
without inspecting them. -/
structure ToolArgs where
  fields : List (String × String)
  deriving DecidableEq

/-- One chunk of the provider's streamed response: optional text and the
function calls attached to the chunk. -/
structure DriverChunk where
  text : Option String
  functionCalls : List (String × ToolArgs)
  deriving DecidableEq

/-- A whole streamed provider response: the chunks delivered, then an
optional failure raised by the stream after them (`none` for a clean end). -/
structure DriverStream where
  chunks : List DriverChunk
  failMsg : Option String
  deriving DecidableEq

/-- One event yielded by `AIService.generateContentStream`. -/
inductive AIChunk where
  | text (content : String)
  | functionCall (name : String) (args : ToolArgs)
  deriving DecidableEq

/-- The events one driver chunk yields
(src/services/sql-assistant/ai.service.ts lines 202-215): its text when
truthy, then one event per attached function call. -/
def chunkEvents (c : DriverChunk) : List AIChunk :=
  (match c.text with
   | some t => if t = "" then [] else [AIChunk.text t]
   | none => []) ++
  c.functionCalls.map (fun nc => AIChunk.functionCall nc.1 nc.2)

/-- All events of `AIService.generateContentStream` before any failure. -/
def AIService.streamEvents (d : DriverStream) : List AIChunk :=
  (d.chunks.map chunkEvents).flatten

/-- The `AIServiceError` message `generateContentStream` raises after its
yielded events when the provider stream fails
(src/services/sql-assistant/ai.service.ts lines 216-221). -/
def AIService.streamError (d : DriverStream) : Option String :=
  d.failMsg.map (fun m => "Failed to generate content stream: " ++ m)

/-- Embeds `AIService.generateContentStream`
(src/services/sql-assistant/ai.service.ts lines 185-222) as a state
transition: the yielded events plus the optional trailing failure.  The
method never writes `lastTokenUsage`, so the state component is returned
unchanged. -/
def AIService.generateContentStream (st : AIState) (d : DriverStream) :
    (List AIChunk × Option String) × AIState :=
  ((AIService.streamEvents d, AIService.streamError d), st)

/-- Embeds `AIService.getLastTokenUsage`
(src/services/sql-assistant/ai.service.ts lines 227-229). -/
def AIService.getLastTokenUsage (st : AIState) : Option TokenUsage :=
  st.lastTokenUsage

/-- A concrete usage record for the C8 run. -/
def usageA : TokenUsage := ⟨some 11, some 22, some 33, none⟩

/-- The gateway state after one one-shot call that reported `usageA`. -/
def stateAfterOneShot : AIState :=
  (AIService.generateContent ⟨none⟩ (.ok ⟨"answer", some usageA⟩)).2

/-- Claim C8 counterexample: after a subsequent streaming call (one text
chunk, clean end) on the same instance, `getLastTokenUsage` still returns
the usage of the earlier one-shot call — the streaming call overwrites
nothing, so the stored value does not reflect the most recent call. -/
theorem C8_counterexample_stream_does_not_overwrite :
    AIService.getLastTokenUsage
        (AIService.generateContentStream stateAfterOneShot ⟨[⟨some "hi", []⟩], none⟩).2 =
      some usageA ∧
    (AIService.generateContentStream stateAfterOneShot ⟨[⟨some "hi", []⟩], none⟩).2 =
      stateAfterOneShot :=
  ⟨rfl, rfl⟩

/-- Claim C8, amended: only the one-shot `generateContent` overwrites the
stored last-token-usage value (with the usage of that call); the streaming
`generateContentStream` leaves the state untouched, so immediately after a
call, `getLastTokenUsage` reflects the most recent one-shot call, not
necessarily the most recent call. -/
theorem C8_amended_usage_overwrite :
    (∀ (st : AIState) (r : ProviderResponse),
      AIService.getLastTokenUsage (AIService.generateContent st (.ok r)).2 = r.usageMetadata) ∧
    (∀ (st : AIState) (d : DriverStream),
      (AIService.generateContentStream st d).2 = st) :=
  ⟨fun _ _ => rfl, fun _ _ => rfl⟩

/-- Environment of the Redis-backed cache for values of type `V`: `get`
yields the cached value (`none` for a miss) or raises; `setex` stores with a
TTL or raises.  Serialization through JSON is transparent for the values the
services store, so values are modeled directly. -/
structure CacheEnv (V : Type) where
  get : String → Except String (Option V)
  setex : String → Nat → V → Except String Unit

/-- Embeds `getCached` (src/utils/cache-utils.ts lines 12-23): a backend
failure becomes a `CacheError` whose message wraps the cause. -/
def getCached {V : Type} (env : CacheEnv V) (key : String) : Except String (Option V) :=
  match env.get key with
  | .ok v => .ok v
  | .error m => .error ("Failed to get cached value: " ++ m)

/-- Embeds `setCached` (src/utils/cache-utils.ts lines 28-39). -/
def setCached {V : Type} (env : CacheEnv V) (key : String) (value : V) (ttl : Nat) :
    Except String Unit :=
  match env.setex key ttl value with
  | .ok _ => .ok ()
  | .error m => .error ("Failed to set cached value: " ++ m)

/-- Embeds `getOrSetCached` (src/utils/cache-utils.ts lines 84-109): cache
hit, else the factory, then the store; its own `catch` rethrows, so every
failure — of the backend on either side or of the factory — propagates to
the caller. -/
def getOrSetCached {V : Type} (env : CacheEnv V) (key : String) (ttl : Nat)
    (factory : Except String V) : Except String V :=
  match getCached env key with
  | .error m => .error m
  | .ok (some v) => .ok v
  | .ok none =>
    match factory with
    | .error m => .error m
    | .ok value =>
      match setCached env key value ttl with
      | .error m => .error m
      | .ok _ => .ok value

/-- The TTL constants of src/config/cache.config.ts. -/
structure CacheConfigT where
  schemaTTL : Nat
  businessRuleTTL : Nat
  tablesTTL : Nat

/-- `cacheConfig` (src/config/cache.config.ts): one hour, one day, one hour. -/
def cacheConfig : CacheConfigT := ⟨3600, 86400, 3600⟩

/-- Insertion into a sorted list of strings, for the schema cache key. -/
def insertSorted (x : String) : List String → List String
  | [] => [x]
  | y :: ys => if x ≤ y then x :: y :: ys else y :: insertSorted x ys

/-- Lexicographic sort, modeling `Array.prototype.sort` on strings. -/
def sortStrings : List String → List String
  | [] => []
  | x :: xs => insertSorted x (sortStrings xs)

/-- `generateSchemaKey` (src/config/cache.config.ts): the project id and the
sorted, comma-joined table names under the `schema` namespace. -/
def generateSchemaKey (projectId : Nat) (tableNames : List String) : String :=
  "schema:" ++ toString projectId ++ ":" ++ joinWith "," (sortStrings tableNames)

/-- `generateBusinessRuleKey` (src/config/cache.config.ts). -/
def generateBusinessRuleKey (projectId : Nat) : String :=
  "business-rule:" ++ toString projectId

/-- `generateTablesKey` (src/config/cache.config.ts). -/
def generateTablesKey (projectId : Nat) : String :=
  "tables:" ++ toString projectId

/-- Column metadata as `SchemaService.getTableColumns` shapes it
(src/services/sql-assistant/schema.service.ts lines 103-109); the
`sampleContent` slot is always set to null there. -/
structure ColumnInfo where
  tableName : String
  columnName : String
  type : String
  nullable : String
  sampleContent : Option String
  deriving DecidableEq

/-- Environment of the project database as the schema service consults it:
the live table list, per-table column metadata (ordered by ordinal
position, as the query requests), and the `LIMIT 1` sample probe.  Each
`.error m` is a thrown driver/service error with message `m`. -/
structure DbEnv where
  getTables : Except String (List String)
  getColumns : String → Except String (List ColumnInfo)
  getSample : String → Except String (List DbRow)

/-- Embeds `SchemaService.getSampleRow`
(src/services/sql-assistant/schema.service.ts lines 115-124): first row if
any; its own catch turns a probe failure into no sample. -/
def SchemaService.getSampleRow (env : DbEnv) (tableName : String) : Option DbRow :=
  match env.getSample tableName with
  | .ok (r :: _) => some r
  | .ok [] => none
  | .error _ => none

/-- Sample values have commas replaced by semicolons
(src/services/sql-assistant/schema.service.ts line 67). -/
def escapeCommas (s : String) : String :=
  String.mk (s.data.map (fun c => if c = ',' then ';' else c))

/-- The CSV lines one table contributes
(src/services/sql-assistant/schema.service.ts lines 64-73): one line per
column; the sample cell is empty when the row is absent, the column is
missing from it, or its value is NULL. -/
def csvRowsFor (tableName : String) (cols : List ColumnInfo) (sample : Option DbRow) :
    List String :=
  cols.map (fun col =>
    let sampleStr :=
      match sample with
      | some row =>
        match row.lookup col.columnName with
        | some (some s) => escapeCommas s
        | _ => ""
      | none => ""
    tableName ++ "," ++ col.columnName ++ "," ++ col.type ++ "," ++ col.nullable ++ "," ++
      sampleStr)

/-- The per-table loop of `fetchTableSchema`
(src/services/sql-assistant/schema.service.ts lines 51-74): a requested
name absent from the live list is skipped; a column-metadata failure aborts
the whole fetch; a sample-probe failure only drops the sample. -/
def SchemaService.buildRows (env : DbEnv) (availableTables : List String) :
    List String → Except String (List String)
  | [] => .ok []
  | t :: ts =>
    if availableTables.contains t then
      match env.getColumns t with
      | .error m => .error m
      | .ok cols =>
        match SchemaService.buildRows env availableTables ts with
        | .error m => .error m
        | .ok rest => .ok (csvRowsFor t cols (SchemaService.getSampleRow env t) ++ rest)
    else SchemaService.buildRows env availableTables ts

/-- Embeds `SchemaService.fetchTableSchema`
(src/services/sql-assistant/schema.service.ts lines 42-84): header line plus
the per-table rows; any failure is wrapped into the
`SchemaRetrievalError` message of its catch. -/
def SchemaService.fetchTableSchema (env : DbEnv) (tableNames : List String) :
    Except String String :=
  match env.getTables with
  | .error m => .error ("Failed to fetch schema: " ++ m)
  | .ok availableTables =>
    match SchemaService.buildRows env availableTables tableNames with
    | .error m => .error ("Failed to fetch schema: " ++ m)
    | .ok lines =>
      .ok (joinWith "\n" ("Table_Name,Column_Name,Type,Nullable,Sample_Content" :: lines))

/-- Embeds `SchemaService.getTableSchemaAsCSV`
(src/services/sql-assistant/schema.service.ts lines 22-37): the cached
fetch; every failure reaching its catch — including a cache-backend
failure rethrown by `getOrSetCached` — is wrapped into a
`SchemaRetrievalError`. -/
def SchemaService.getTableSchemaAsCSV (cenv : CacheEnv String) (denv : DbEnv)
    (projectId : Nat) (tableNames : List String) : Except SQLAssistantError String :=
  match getOrSetCached cenv (generateSchemaKey projectId tableNames) cacheConfig.schemaTTL
      (SchemaService.fetchTableSchema denv tableNames) with
  | .ok v => .ok v
  | .error m => .error (.schemaRetrieval ("Failed to retrieve schema: " ++ m))

/-- Embeds `SchemaService.getAvailableTables`
(src/services/sql-assistant/schema.service.ts lines 129-144): the cached
live table list; every failure reaching its catch is wrapped into a
`SchemaRetrievalError`. -/
def SchemaService.getAvailableTables (cenv : CacheEnv (List String)) (denv : DbEnv)
    (projectId : Nat) : Except SQLAssistantError (List String) :=
  match getOrSetCached cenv (generateTablesKey projectId) cacheConfig.tablesTTL
      denv.getTables with
  | .ok v => .ok v
  | .error m => .error (.schemaRetrieval ("Failed to get tables: " ++ m))

/-- Embeds `BusinessRuleService.getBusinessRule`
(src/services/sql-assistant/business-rule.service.ts lines 17-34): empty or
absent rule short-circuits; any failure of the cached read falls back to
the value held in memory, so the call never raises. -/
def BusinessRuleService.getBusinessRule (cenv : CacheEnv String) (projectId : Nat)
    (businessRule : Option String) : String :=
  match businessRule with
  | none => ""
  | some r =>
    if r = "" then ""
    else
      match getOrSetCached cenv (generateBusinessRuleKey projectId)
          cacheConfig.businessRuleTTL (.ok r) with
      | .ok v => v
      | .error _ => r

/-- Embeds `BusinessRuleService.formatForPrompt`
(src/services/sql-assistant/business-rule.service.ts lines 39-47). -/
def BusinessRuleService.formatForPrompt (cenv : CacheEnv String) (projectId : Nat)
    (businessRule : Option String) : String :=
  let rule := BusinessRuleService.getBusinessRule cenv projectId businessRule
  if (jsTrim rule).data.isEmpty then ""
  else "\nBusiness Rules:\n" ++ rule ++ "\n"

/-- A string-valued cache whose backend fails on every read. -/
def cenvDownS : CacheEnv String := ⟨fun _ => .error "redis down", fun _ _ _ => .ok ()⟩

/-- A list-valued cache whose backend fails on every read. -/
def cenvDownL : CacheEnv (List String) := ⟨fun _ => .error "redis down", fun _ _ _ => .ok ()⟩

/-- A healthy project database with one table of one column and no rows. -/
def denvLive : DbEnv where
  getTables := .ok ["orders"]
  getColumns := fun t => .ok [⟨t, "id", "int", "NO", none⟩]
  getSample := fun _ => .ok []

/-- Claim C3 counterexample: against `denvLive` the live schema text is
computable, yet with the cache backend down `getTableSchemaAsCSV` and
`getAvailableTables` return a `SchemaRetrievalError` wrapping the cache
failure instead of that live value — the cache failure is surfaced to the
caller, which the claim rules out. -/
theorem C3_counterexample_cache_failure_surfaces :
    SchemaService.fetchTableSchema denvLive ["orders"] =
      .ok "Table_Name,Column_Name,Type,Nullable,Sample_Content\norders,id,int,NO," ∧
    SchemaService.getTableSchemaAsCSV cenvDownS denvLive 1 ["orders"] =
      .error (.schemaRetrieval
        "Failed to retrieve schema: Failed to get cached value: redis down") ∧
    SchemaService.getAvailableTables cenvDownL denvLive 1 =
      .error (.schemaRetrieval
        "Failed to get tables: Failed to get cached value: redis down") :=
  ⟨rfl, rfl, rfl⟩

/-- Claim C3, amended: only `formatForPrompt` survives a cache-backend
failure, falling back to the in-memory rule; for `getTableSchemaAsCSV` and
`getAvailableTables` a failure of the cache read — and likewise of the
store after a fresh computation — propagates as a `SchemaRetrievalError`
wrapping the cache failure, and the live value is not returned. -/
theorem C3_amended_cache_outage (cenvS cenvS2 : CacheEnv String)
    (cenvL cenvL2 : CacheEnv (List String)) (denv : DbEnv)
    (projectId : Nat) (tableNames : List String) (m r : String)
    (hgetS : ∀ k, cenvS.get k = .error m)
    (hgetL : ∀ k, cenvL.get k = .error m)
    (hget2S : ∀ k, cenvS2.get k = .ok none)
    (hset2S : ∀ k t v, cenvS2.setex k t v = .error m)
    (hget2L : ∀ k, cenvL2.get k = .ok none)
    (hset2L : ∀ k t v, cenvL2.setex k t v = .error m)
    (hr : r ≠ "") (hrt : (jsTrim r).data.isEmpty = false) :
    (BusinessRuleService.formatForPrompt cenvS projectId (some r) =
      "\nBusiness Rules:\n" ++ r ++ "\n") ∧
    (SchemaService.getTableSchemaAsCSV cenvS denv projectId tableNames =
      .error (.schemaRetrieval
        ("Failed to retrieve schema: Failed to get cached value: " ++ m))) ∧
    (SchemaService.getAvailableTables cenvL denv projectId =
      .error (.schemaRetrieval
        ("Failed to get tables: Failed to get cached value: " ++ m))) ∧
    (BusinessRuleService.formatForPrompt cenvS2 projectId (some r) =
      "\nBusiness Rules:\n" ++ r ++ "\n") ∧
    (∀ lv, SchemaService.fetchTableSchema denv tableNames = .ok lv →
      SchemaService.getTableSchemaAsCSV cenvS2 denv projectId tableNames =
        .error (.schemaRetrieval
          ("Failed to retrieve schema: Failed to set cached value: " ++ m))) ∧
    (∀ tv, denv.getTables = .ok tv →
      SchemaService.getAvailableTables cenvL2 denv projectId =
        .error (.schemaRetrieval
          ("Failed to get tables: Failed to set cached value: " ++ m))) := by
  refine ⟨?_, ?_, ?_, ?_, fun lv hlv => ?_, fun tv htv => ?_⟩
  · simp only [BusinessRuleService.formatForPrompt, BusinessRuleService.getBusinessRule,
      getOrSetCached, getCached, hgetS, hr, hrt, if_neg hr, Bool.false_eq_true, ite_false]
  · simp only [SchemaService.getTableSchemaAsCSV, getOrSetCached, getCached, hgetS]
    rfl
  · simp only [SchemaService.getAvailableTables, getOrSetCached, getCached, hgetL]
    rfl
  · simp only [BusinessRuleService.formatForPrompt, BusinessRuleService.getBusinessRule,
      getOrSetCached, getCached, setCached, hget2S, hset2S, if_neg hr, Bool.false_eq_true,
      hrt, ite_false]
  · simp only [SchemaService.getTableSchemaAsCSV, getOrSetCached, getCached, setCached,
      hget2S, hset2S, hlv]
    rfl
  · simp only [SchemaService.getAvailableTables, getOrSetCached, getCached, setCached,
      hget2L, hset2L, htv]
    rfl

/-- A string-valued cache that always misses and fails every store. -/
def cenvMissS : CacheEnv String := ⟨fun _ => .ok none, fun _ _ _ => .error "redis down"⟩

/-- A list-valued cache that always misses and fails every store. -/
def cenvMissL : CacheEnv (List String) := ⟨fun _ => .ok none, fun _ _ _ => .error "redis down"⟩

/-- Witness for C3 (amended), at the concrete down and miss-then-fail caches
over the healthy one-table database. -/
theorem C3_amended_cache_outage_witness :
    (BusinessRuleService.formatForPrompt cenvDownS 1 (some "rule") =
      "\nBusiness Rules:\n" ++ "rule" ++ "\n") ∧
    (SchemaService.getTableSchemaAsCSV cenvDownS denvLive 1 ["orders"] =
      .error (.schemaRetrieval
        ("Failed to retrieve schema: Failed to get cached value: " ++ "redis down"))) ∧
    (SchemaService.getAvailableTables cenvDownL denvLive 1 =
      .error (.schemaRetrieval
        ("Failed to get tables: Failed to get cached value: " ++ "redis down"))) ∧
    (BusinessRuleService.formatForPrompt cenvMissS 1 (some "rule") =
      "\nBusiness Rules:\n" ++ "rule" ++ "\n") ∧
    (∀ lv, SchemaService.fetchTableSchema denvLive ["orders"] = .ok lv →
      SchemaService.getTableSchemaAsCSV cenvMissS denvLive 1 ["orders"] =
        .error (.schemaRetrieval
          ("Failed to retrieve schema: Failed to set cached value: " ++ "redis down"))) ∧
    (∀ tv, denvLive.getTables = .ok tv →
      SchemaService.getAvailableTables cenvMissL denvLive 1 =
        .error (.schemaRetrieval
          ("Failed to get tables: Failed to set cached value: " ++ "redis down"))) :=
  C3_amended_cache_outage cenvDownS cenvMissS cenvDownL cenvMissL denvLive 1 ["orders"]
    "redis down" "rule" (fun _ => rfl) (fun _ => rfl) (fun _ => rfl) (fun _ _ _ => rfl)
    (fun _ => rfl) (fun _ _ _ => rfl) (by decide) (by decide)

/-- One chunk yielded by the response composer streams: a text chunk or a
chart specification carrying the tool-call arguments
(src/services/sql-assistant/response.service.ts lines 139-143). -/
inductive RChunk where
  | text (content : String)
  | chart (spec : ToolArgs)
  deriving DecidableEq

/-- The shared chunk logic of `ResponseService.generateResponseStream` and
`ResponseService.generateResponseFromHistoryStream`
(src/services/sql-assistant/response.service.ts lines 133-148 and 258-273):
each gateway text event becomes a text chunk; each `generate_chart` tool
call becomes a chart chunk (other tool names are dropped); a failure of the
gateway stream is caught inside the generator and yielded as one final text
chunk carrying the error message — the generator itself never raises. -/
def ResponseService.streamChunks (d : DriverStream) : List RChunk :=
  let mapped := (AIService.streamEvents d).filterMap (fun e =>
    match e with
    | .text c => some (RChunk.text c)
    | .functionCall n args => if n = "generate_chart" then some (RChunk.chart args) else none)
  match AIService.streamError d with
  | none => mapped
  | some m => mapped ++ [RChunk.text ("Error generating response: " ++ m)]

/-- Embeds `ResponseService.generateResponseStream`
(src/services/sql-assistant/response.service.ts lines 58-149); the gateway
streamed response to its prompt over the query results is the oracle `d`. -/
def ResponseService.generateResponseStream (d : DriverStream) : List RChunk :=
  ResponseService.streamChunks d

/-- Embeds `ResponseService.generateResponseFromHistoryStream`
(src/services/sql-assistant/response.service.ts lines 189-274); identical
chunk behaviour over the history-only prompt. -/
def ResponseService.generateResponseFromHistoryStream (d : DriverStream) : List RChunk :=
  ResponseService.streamChunks d

/-- The payload of a `content` stream event: the fixed messages are plain
strings, while the response-stream loops of `askStream` wrap each whole
chunk object into the `content` field
(src/services/sql-assistant/sql-assistant.service.ts lines 201-204 and
348-351). -/
inductive ContentPayload where
  | str (s : String)
  | chunk (c : RChunk)
  deriving DecidableEq

/-- The `StreamEvent` union of src/types/sql-assistant.types.ts (lines
55-86): the `chart` kind exists in the type, the metadata carries optional
sql and row count plus the rag-skip flag. -/
inductive StreamEvent where
  | status (content : String)
  | content (payload : ContentPayload)
  | metadata (sql : Option String) (rowCount : Option Nat) (ragSkipped : Bool)
  | chart (spec : ToolArgs)
  | error (content : String)
  | done (content : String)
  deriving DecidableEq

/-- Terminal events are `done` and `error`. -/
def StreamEvent.isTerminal : StreamEvent → Bool
  | .done _ => true
  | .error _ => true
  | _ => false

/-- True exactly for `error`-kind events. -/
def StreamEvent.isErrorEvt : StreamEvent → Bool
  | .error _ => true
  | _ => false

/-- True exactly for `chart`-kind events. -/
def StreamEvent.isChartEvt : StreamEvent → Bool
  | .chart _ => true
  | _ => false

/-- The status enum of a log row. -/
inductive LogStatus where
  | success
  | error
  | no_data
  deriving DecidableEq

/-- The entry object `askStream` passes to `createLog`
(src/services/sql-assistant-logging.service.ts interface `LogEntry`, plus
the `contextEvaluationTimeMs`, `ragSkipped` and `contextDecision` properties
the orchestrator call sites add); a field is `none` when the call site does
not pass the property. -/
structure LogEntry where
  chatId : Option Nat := none
  projectId : Nat
  userMessage : String
  generatedSql : Option String := none
  executionTimeMs : Option Nat := none
  contextEvaluationTimeMs : Option Nat := none
  schemaFetchTimeMs : Option Nat := none
  sqlGenerationTimeMs : Option Nat := none
  queryExecutionTimeMs : Option Nat := none
  responseGenerationTimeMs : Option Nat := none
  rowCount : Option Nat := none
  tokenUsage : Option TokenUsage := none
  status : LogStatus
  errorMessage : Option String := none
  ragSkipped : Option Bool := none
  contextDecision : Option String := none
  deriving DecidableEq

/-- Environment of one orchestrated run.  Component outcomes are oracles at
the service boundaries embedded above: `ctxEnv` drives the context
evaluator, `histStream` and `rowsStream` are the gateway streamed responses
consumed by the two response-composer calls, `schemaResult` and
`queryResult` are the outcomes of the schema fetch and of
`generateAndExecute`, `lastTokenUsage` is the value held by the gateway when
the orchestrator reads it, and `createLog` is the audit-log sink — `some m`
models the insert throwing with message `m` (`createLog` rethrows its
errors).  Durations model the wall clock of each awaited stage. -/
structure OrchEnv where
  projectId : Nat
  ctxEnv : CtxEnv
  ctxDuration : Nat
  histStream : DriverStream
  histDuration : Nat
  schemaResult : Except SQLAssistantError String
  schemaDuration : Nat
  queryResult : Except SQLAssistantError ExecOutcome
  queryDuration : Nat
  rowsStream : DriverStream
  rowsDuration : Nat
  lastTokenUsage : Option TokenUsage
  createLog : LogEntry → Option String

/-- The observable outcome of one `askStream` run: the events yielded in
order, the log entries successfully persisted, and the message of an
exception escaping the generator (only possible when the error-path
`createLog` itself throws). -/
structure AskStreamRun where
  events : List StreamEvent
  logs : List LogEntry
  escaped : Option String
  deriving DecidableEq

/-- The catch block of `askStream`
(src/services/sql-assistant/sql-assistant.service.ts lines 389-423): the
typed errors are rendered as `Error: …`, anything else as the generic
message; one error-status entry is appended with whichever of the mutable
locals had been assigned by then; a failure of this last `createLog`
escapes the generator. -/
def askStreamCatch (env : OrchEnv) (query : String) (chatId : Option Nat)
    (e : SQLAssistantError) (elapsed schemaFetchTime sqlGenerationTime : Nat)
    (generatedSql : String) (rowCount : Nat)
    (evtsSoFar : List StreamEvent) (logsSoFar : List LogEntry) : AskStreamRun :=
  let entry : LogEntry :=
    { chatId := chatId, projectId := env.projectId, userMessage := query,
      generatedSql := some generatedSql, executionTimeMs := some elapsed,
      schemaFetchTimeMs := some schemaFetchTime,
      sqlGenerationTimeMs := some sqlGenerationTime, rowCount := some rowCount,
      status := .error, errorMessage := some e.message }
  let evts := evtsSoFar ++
    [if e.isTyped then StreamEvent.error ("Error: " ++ e.message)
     else StreamEvent.error ("An unexpected error occurred: " ++ e.message)]
  match env.createLog entry with
  | none => ⟨evts, logsSoFar ++ [entry], none⟩
  | some m => ⟨evts, logsSoFar, some m⟩

/-- The RAG flow of `askStream` from the schema fetch onward
(src/services/sql-assistant/sql-assistant.service.ts lines 241-423),
parameterized by the context-evaluation time already spent (0 when no
evaluation ran), the decision string held in `contextDecision`, and the
events already yielded. -/
def askStreamRag (env : OrchEnv) (query : String) (chatId : Option Nat)
    (ctxTime : Nat) (contextDecision : String) (evts0 : List StreamEvent) : AskStreamRun :=
  let evts1 := evts0 ++ [StreamEvent.status "Analyzing database schema..."]
  match env.schemaResult with
  | .error e =>
    askStreamCatch env query chatId e (ctxTime + env.schemaDuration) 0 0 "" 0 evts1 []
  | .ok _schema =>
    let schemaFetchTime := env.schemaDuration
    let evts2 := evts1 ++ [StreamEvent.status "Generating SQL query..."]
    match env.queryResult with
    | .error e =>
      askStreamCatch env query chatId e (ctxTime + env.schemaDuration + env.queryDuration)
        schemaFetchTime 0 "" 0 evts2 []
    | .ok out =>
      let sqlGenerationTime := env.queryDuration
      let elapsed0 := ctxTime + env.schemaDuration + env.queryDuration
      if out.sql = "NO_RELEVANT_DATA" then
        let evts3 := evts2 ++
          [StreamEvent.content
            (.str "I couldn't find relevant data in the table for your query."),
           StreamEvent.done "Done"]
        let entry : LogEntry :=
          { chatId := chatId, projectId := env.projectId, userMessage := query,
            generatedSql := some out.sql, executionTimeMs := some elapsed0,
            contextEvaluationTimeMs := some ctxTime, schemaFetchTimeMs := some schemaFetchTime,
            sqlGenerationTimeMs := some sqlGenerationTime, status := .no_data,
            ragSkipped := some false, contextDecision := some contextDecision }
        match env.createLog entry with
        | none => ⟨evts3, [entry], none⟩
        | some m =>
          askStreamCatch env query chatId (.other m) elapsed0 schemaFetchTime
            sqlGenerationTime out.sql out.rows.length evts3 []
      else
        let evts3 := evts2 ++ [StreamEvent.status "Executing SQL query..."]
        if out.rows.isEmpty then
          let evts4 := evts3 ++
            [StreamEvent.content
              (.str "Your query executed successfully, but no results were found."),
             StreamEvent.done "Done"]
          let entry : LogEntry :=
            { chatId := chatId, projectId := env.projectId, userMessage := query,
              generatedSql := some out.sql, executionTimeMs := some elapsed0,
              queryExecutionTimeMs := some out.executionTime,
              contextEvaluationTimeMs := some ctxTime,
              schemaFetchTimeMs := some schemaFetchTime,
              sqlGenerationTimeMs := some sqlGenerationTime, rowCount := some 0,
              status := .no_data, ragSkipped := some false,
              contextDecision := some contextDecision }
          match env.createLog entry with
          | none => ⟨evts4, [entry], none⟩
          | some m =>
            askStreamCatch env query chatId (.other m) elapsed0 schemaFetchTime
              sqlGenerationTime out.sql 0 evts4 []
        else
          let evts4 := evts3 ++ [StreamEvent.status "Formulating response..."]
          let chunks := ResponseService.generateResponseStream env.rowsStream
          let evts5 := evts4 ++ chunks.map (fun c => StreamEvent.content (.chunk c))
          let elapsed1 := elapsed0 + env.rowsDuration
          let evts6 := evts5 ++
            [StreamEvent.metadata (some out.sql) (some out.rows.length) false,
             StreamEvent.done "Done"]
          let entry : LogEntry :=
            { chatId := chatId, projectId := env.projectId, userMessage := query,
              generatedSql := some out.sql, executionTimeMs := some elapsed1,
              contextEvaluationTimeMs := some ctxTime,
              schemaFetchTimeMs := some schemaFetchTime,
              queryExecutionTimeMs := some out.executionTime,
              sqlGenerationTimeMs := some sqlGenerationTime,
              responseGenerationTimeMs := some env.rowsDuration,
              rowCount := some out.rows.length, tokenUsage := env.lastTokenUsage,
              status := .success, ragSkipped := some false,
              contextDecision := some contextDecision }
          match env.createLog entry with
          | none => ⟨evts6, [entry], none⟩
          | some m =>
            askStreamCatch env query chatId (.other m) elapsed1 schemaFetchTime
              sqlGenerationTime out.sql out.rows.length evts6 []

/-- Embeds `SQLAssistantService.askStream`
(src/services/sql-assistant/sql-assistant.service.ts lines 150-424): the
optional context-evaluation stage and the context-sufficient fast path,
else the RAG flow.  Every `createLog` is awaited inside the surrounding
`try`, so a throwing append on a path that already yielded its terminal
event lands in the catch block, which yields a further `error` event and
attempts the error-path append. -/
def SQLAssistantService.askStream (env : OrchEnv) (query chatHistory : String)
    (chatId : Option Nat) : AskStreamRun :=
  if (jsTrim chatHistory).data.isEmpty then
    askStreamRag env query chatId 0 "" []
  else
    let evts0 := [StreamEvent.status "Evaluating context..."]
    let res := ContextEvaluationService.evaluateContext env.ctxEnv query chatHistory
    let ctxTime := env.ctxDuration
    let contextDecision := res.evaluation.decision.render
    if res.evaluation.decision = .sufficient then
      let evts1 := evts0 ++ [StreamEvent.status "Generating response from context..."]
      let chunks := ResponseService.generateResponseFromHistoryStream env.histStream
      let evts2 := evts1 ++ chunks.map (fun c => StreamEvent.content (.chunk c))
      let evts3 := evts2 ++ [StreamEvent.metadata none none true, StreamEvent.done "Done"]
      let elapsed := ctxTime + env.histDuration
      let entry : LogEntry :=
        { chatId := chatId, projectId := env.projectId, userMessage := query,
          generatedSql := some "SKIPPED - Context sufficient",
          executionTimeMs := some elapsed, contextEvaluationTimeMs := some ctxTime,
          responseGenerationTimeMs := some env.histDuration,
          tokenUsage := env.lastTokenUsage, status := .success,
          ragSkipped := some true, contextDecision := some contextDecision }
      match env.createLog entry with
      | none => ⟨evts3, [entry], none⟩
      | some m => askStreamCatch env query chatId (.other m) elapsed 0 0 "" 0 evts3 []
    else
      askStreamRag env query chatId ctxTime contextDecision evts0

/-- The pipeline stages an `ask`/`askStream` run can invoke, for stating
which components a run consulted. -/
inductive Stage where
  | ctxEval
  | schemaFetch
  | sqlGenExec
  | respGen
  deriving DecidableEq

/-- Environment of one buffered `ask` run; `ctxEnv` is the context
evaluator the instance holds (the buffered path never consults it). -/
structure AskEnv where
  ctxEnv : CtxEnv
  schemaResult : Except SQLAssistantError String
  queryResult : Except SQLAssistantError ExecOutcome
  respondResult : Except SQLAssistantError String

/-- The user-facing rendering of a caught error in buffered mode
(src/services/sql-assistant/sql-assistant.service.ts lines 133-144). -/
def renderAskError (e : SQLAssistantError) : String :=
  if e.isTyped then "Error: " ++ e.message
  else "An unexpected error occurred: " ++ e.message

/-- Embeds `SQLAssistantService.ask`
(src/services/sql-assistant/sql-assistant.service.ts lines 102-145),
together with the trace of pipeline stages the run awaited: schema fetch,
then generate-and-execute, then (on data) response generation.  The body
contains no call to the context evaluator. -/
def SQLAssistantService.ask (env : AskEnv) (query chatHistory : String) :
    String × List Stage :=
  match env.schemaResult with
  | .error e => (renderAskError e, [.schemaFetch])
  | .ok _ =>
    match env.queryResult with
    | .error e => (renderAskError e, [.schemaFetch, .sqlGenExec])
    | .ok out =>
      if out.sql = "NO_RELEVANT_DATA" then
        ("I couldn't find relevant data in the table for your query.",
          [.schemaFetch, .sqlGenExec])
      else if out.rows.isEmpty then
        ("Your query executed successfully, but no results were found.",
          [.schemaFetch, .sqlGenExec])
      else
        match env.respondResult with
        | .error e => (renderAskError e, [.schemaFetch, .sqlGenExec, .respGen])
        | .ok r => (r, [.schemaFetch, .sqlGenExec, .respGen])
/-- True when the list holds exactly one terminal event and it is the last
element — the shape the claim requires of an `askStream` event sequence. -/
def oneTerminalAtEnd : List StreamEvent → Bool
  | [] => false
  | e :: rest => if rest.isEmpty then e.isTerminal else !e.isTerminal && oneTerminalAtEnd rest

/-- Helper: unfolding `oneTerminalAtEnd` on a cons with a non-empty tail. -/
theorem oneTerminalAtEnd_cons (a : StreamEvent) (rest : List StreamEvent) (h : rest ≠ []) :
    oneTerminalAtEnd (a :: rest) = (!a.isTerminal && oneTerminalAtEnd rest) := by
  cases rest with
  | nil => exact absurd rfl h
  | cons b bs => rfl

/-- Helper: a run of non-terminal events closed by one terminal event
satisfies `oneTerminalAtEnd`. -/
theorem oneTerminalAtEnd_append (pre : List StreamEvent) (e : StreamEvent)
    (hpre : ∀ x ∈ pre, x.isTerminal = false) (he : e.isTerminal = true) :
    oneTerminalAtEnd (pre ++ [e]) = true := by
  induction pre with
  | nil => simp [oneTerminalAtEnd, he]
  | cons a as ih =>
    have ha : a.isTerminal = false := hpre a (List.mem_cons_self a as)
    have ih2 := ih (fun x hx => hpre x (List.mem_cons_of_mem a hx))
    rw [List.cons_append, oneTerminalAtEnd_cons _ _ (by simp), ha, ih2]
    rfl

/-- Helper: a run of non-terminal events, one more non-terminal event, and a
final terminal event satisfy `oneTerminalAtEnd`. -/
theorem oneTerminalAtEnd_append2 (pre : List StreamEvent) (x e : StreamEvent)
    (hpre : ∀ y ∈ pre, y.isTerminal = false) (hx : x.isTerminal = false)
    (he : e.isTerminal = true) :
    oneTerminalAtEnd (pre ++ [x, e]) = true := by
  have h : pre ++ [x, e] = (pre ++ [x]) ++ [e] := by simp
  rw [h]
  refine oneTerminalAtEnd_append _ _ ?_ he
  intro y hy
  rcases List.mem_append.mp hy with h1 | h1
  · exact hpre y h1
  · rcases List.mem_singleton.mp h1 with rfl
    exact hx

/-- Helper: the events the response-stream loops wrap into `content` are
never terminal. -/
theorem content_chunk_map_nonterminal (cs : List RChunk) :
    ∀ x ∈ cs.map (fun c => StreamEvent.content (.chunk c)), x.isTerminal = false := by
  intro x hx
  rcases List.mem_map.mp hx with ⟨c, _, rfl⟩
  rfl

/-- Helper: membership in a list extended by one non-terminal event
preserves non-terminality. -/
theorem nonterminal_snoc (l : List StreamEvent) (a : StreamEvent)
    (hl : ∀ x ∈ l, x.isTerminal = false) (ha : a.isTerminal = false) :
    ∀ x ∈ l ++ [a], x.isTerminal = false := by
  intro x hx
  rcases List.mem_append.mp hx with h | h
  · exact hl x h
  · rcases List.mem_singleton.mp h with rfl
    exact ha

/-- Helper: non-terminality is preserved by list concatenation. -/
theorem nonterminal_append (l1 l2 : List StreamEvent)
    (h1 : ∀ x ∈ l1, x.isTerminal = false) (h2 : ∀ x ∈ l2, x.isTerminal = false) :
    ∀ x ∈ l1 ++ l2, x.isTerminal = false := by
  intro x hx
  rcases List.mem_append.mp hx with h | h
  · exact h1 x h
  · exact h2 x h

/-- Helper: the error event the catch block yields is terminal whichever
branch of the `instanceof` test renders it. -/
theorem renderErrEvent_terminal (e : SQLAssistantError) :
    (if e.isTyped then StreamEvent.error ("Error: " ++ e.message)
     else StreamEvent.error ("An unexpected error occurred: " ++ e.message)).isTerminal
      = true := by
  cases h : e.isTyped <;> simp [h, StreamEvent.isTerminal]

/-- Helper: with a healthy audit-log sink, the catch block appends exactly
one terminal error event after the events already yielded and nothing
escapes. -/
theorem askStreamCatch_ok (env : OrchEnv) (query : String) (chatId : Option Nat)
    (e : SQLAssistantError) (el s g : Nat) (sql : String) (rc : Nat)
    (evts : List StreamEvent) (logs : List LogEntry)
    (hlog : ∀ x, env.createLog x = none) :
    (askStreamCatch env query chatId e el s g sql rc evts logs).events =
      evts ++ [if e.isTyped then StreamEvent.error ("Error: " ++ e.message)
               else StreamEvent.error ("An unexpected error occurred: " ++ e.message)] ∧
    (askStreamCatch env query chatId e el s g sql rc evts logs).escaped = none := by
  simp [askStreamCatch, hlog]

/-- Helper: with a healthy audit-log sink, every path of the RAG flow yields
exactly one terminal event, last, and nothing escapes the generator, as
long as the already-yielded events are non-terminal. -/
theorem askStreamRag_terminal (env : OrchEnv) (query : String) (chatId : Option Nat)
    (ctxTime : Nat) (cd : String) (evts0 : List StreamEvent)
    (hlog : ∀ x, env.createLog x = none)
    (h0 : ∀ x ∈ evts0, x.isTerminal = false) :
    oneTerminalAtEnd (askStreamRag env query chatId ctxTime cd evts0).events = true ∧
    (askStreamRag env query chatId ctxTime cd evts0).escaped = none := by
  have hmem1 : ∀ x ∈ evts0 ++ [StreamEvent.status "Analyzing database schema..."],
      x.isTerminal = false :=
    nonterminal_snoc _ _ h0 rfl
  unfold askStreamRag
  cases hs : env.schemaResult with
  | error e =>
    rcases askStreamCatch_ok env query chatId e (ctxTime + env.schemaDuration) 0 0 "" 0
      (evts0 ++ [StreamEvent.status "Analyzing database schema..."]) [] hlog with ⟨he1, he2⟩
    simp only [he1, he2, and_true]
    exact oneTerminalAtEnd_append _ _ hmem1 (renderErrEvent_terminal e)
  | ok schema =>
    have hmem2 : ∀ x ∈ (evts0 ++ [StreamEvent.status "Analyzing database schema..."]) ++
        [StreamEvent.status "Generating SQL query..."], x.isTerminal = false :=
      nonterminal_snoc _ _ hmem1 rfl
    cases hq : env.queryResult with
    | error e =>
      rcases askStreamCatch_ok env query chatId e
        (ctxTime + env.schemaDuration + env.queryDuration) env.schemaDuration 0 "" 0
        ((evts0 ++ [StreamEvent.status "Analyzing database schema..."]) ++
          [StreamEvent.status "Generating SQL query..."]) [] hlog with ⟨he1, he2⟩
      simp only [he1, he2, and_true]
      exact oneTerminalAtEnd_append _ _ hmem2 (renderErrEvent_terminal e)
    | ok out =>
      by_cases hnr : out.sql = "NO_RELEVANT_DATA"
      · simp only [hnr, ite_true, if_true, hlog]
        refine ⟨?_, by trivial⟩
        exact oneTerminalAtEnd_append2 _ _ (StreamEvent.done "Done") hmem2 rfl rfl
      · have hmem3 : ∀ x ∈ ((evts0 ++ [StreamEvent.status "Analyzing database schema..."]) ++
            [StreamEvent.status "Generating SQL query..."]) ++
            [StreamEvent.status "Executing SQL query..."], x.isTerminal = false :=
          nonterminal_snoc _ _ hmem2 rfl
        by_cases hre : out.rows.isEmpty
        · simp only [hnr, hre, ite_true, ite_false, if_true, if_false, hlog]
          refine ⟨?_, by trivial⟩
          exact oneTerminalAtEnd_append2 _ _ (StreamEvent.done "Done") hmem3 rfl rfl
        · simp only [hnr, hre, ite_true, ite_false, if_true, if_false, hlog,
            Bool.false_eq_true]
          refine ⟨?_, by trivial⟩
          have hmem4 : ∀ x ∈ (((evts0 ++
              [StreamEvent.status "Analyzing database schema..."]) ++
              [StreamEvent.status "Generating SQL query..."]) ++
              [StreamEvent.status "Executing SQL query..."] ++
              [StreamEvent.status "Formulating response..."]) ++
              ((ResponseService.generateResponseStream env.rowsStream).map
                (fun c => StreamEvent.content (.chunk c))), x.isTerminal = false := by
            refine nonterminal_append _ _ ?_ (content_chunk_map_nonterminal _)
            exact nonterminal_snoc _ _ hmem3 rfl
          have hfin := oneTerminalAtEnd_append2 _
            (StreamEvent.metadata (some out.sql) (some out.rows.length) false)
            (StreamEvent.done "Done") hmem4 rfl rfl
          simpa [List.append_assoc] using hfin

/-- A context evaluator whose gateway is never reachable; unused on the
paths that do not evaluate. -/
def ctxEnvTrivial : CtxEnv := ⟨fun _ _ => .error "unused"⟩

/-- A run whose stages all succeed but whose audit-log sink throws on every
append. -/
def envC2 : OrchEnv where
  projectId := 1
  ctxEnv := ctxEnvTrivial
  ctxDuration := 1
  histStream := ⟨[], none⟩
  histDuration := 1
  schemaResult := .ok "S"
  schemaDuration := 1
  queryResult := .ok ⟨"SELECT 1", [[("a", some "1")]], 5⟩
  queryDuration := 1
  rowsStream := ⟨[⟨some "hi", []⟩], none⟩
  rowsDuration := 1
  lastTokenUsage := none
  createLog := fun _ => some "insert failed"

/-- Claim C2 counterexample: in the run `envC2` the answer streams and
`done` is yielded, then the success-path `createLog` throws inside the
`try`; the catch yields a further `error` event after the terminal `done`,
and the error-path append then throws out of the generator.  This refutes
both exclusivity of the terminal event and the harmlessness of an audit-log
failure. -/
theorem C2_counterexample_error_after_done :
    (SQLAssistantService.askStream envC2 "q" "" none).events =
      [.status "Analyzing database schema...", .status "Generating SQL query...",
       .status "Executing SQL query...", .status "Formulating response...",
       .content (.chunk (.text "hi")),
       .metadata (some "SELECT 1") (some 1) false, .done "Done",
       .error "An unexpected error occurred: insert failed"] ∧
    oneTerminalAtEnd (SQLAssistantService.askStream envC2 "q" "" none).events = false ∧
    (SQLAssistantService.askStream envC2 "q" "" none).escaped = some "insert failed" :=
  ⟨rfl, rfl, rfl⟩

/-- Claim C2, amended: whenever every audit-log append succeeds, each
`askStream` run yields exactly one terminal event (`done` or `error`), as
its last event, and nothing escapes the generator; only a throwing
`createLog` after the terminal event produces the post-terminal `error`
event of the counterexample. -/
theorem C2_amended_terminal_exclusive (env : OrchEnv) (query chatHistory : String)
    (chatId : Option Nat) (hlog : ∀ e, env.createLog e = none) :
    oneTerminalAtEnd (SQLAssistantService.askStream env query chatHistory chatId).events
      = true ∧
    (SQLAssistantService.askStream env query chatHistory chatId).escaped = none := by
  unfold SQLAssistantService.askStream
  cases hh : (jsTrim chatHistory).data.isEmpty with
  | true =>
    simp only [ite_true]
    exact askStreamRag_terminal env query chatId 0 "" [] hlog (by intro x hx; cases hx)
  | false =>
    simp only [Bool.false_eq_true, ite_false]
    by_cases hd : (ContextEvaluationService.evaluateContext
        env.ctxEnv query chatHistory).evaluation.decision = .sufficient
    · simp only [hd, ite_true, if_true, hlog]
      refine ⟨?_, by trivial⟩
      refine oneTerminalAtEnd_append2 _ _ (StreamEvent.done "Done") ?_ rfl rfl
      refine nonterminal_append _ _ ?_ (content_chunk_map_nonterminal _)
      refine nonterminal_snoc _ _ ?_ rfl
      intro x hx
      rcases List.mem_singleton.mp hx with rfl
      rfl
    · simp only [hd, ite_false, if_false]
      refine askStreamRag_terminal env query chatId env.ctxDuration _
        [StreamEvent.status "Evaluating context..."] hlog ?_
      intro x hx
      rcases List.mem_singleton.mp hx with rfl
      rfl

/-- The run of `envC2` with a healthy audit-log sink. -/
def envC2ok : OrchEnv := { envC2 with createLog := fun _ => none }

/-- Witness for C2 (amended), on the fully successful concrete run. -/
theorem C2_amended_terminal_exclusive_witness :
    oneTerminalAtEnd (SQLAssistantService.askStream envC2ok "q" "" none).events = true ∧
    (SQLAssistantService.askStream envC2ok "q" "" none).escaped = none :=
  C2_amended_terminal_exclusive envC2ok "q" "" none (fun _ => rfl)

/-- Helper: the last element of a list extended by one element. -/
theorem getLast?_snoc {α : Type} (l : List α) (a : α) : (l ++ [a]).getLast? = some a := by
  induction l with
  | nil => rfl
  | cons b bs ih =>
    cases bs with
    | nil => rfl
    | cons c cs => simpa [List.cons_append, List.getLast?_cons_cons] using ih

/-- Helper: the wrapped response chunks are never error-kind events. -/
theorem content_map_no_error (cs : List RChunk) :
    (cs.map (fun c => StreamEvent.content (.chunk c))).any StreamEvent.isErrorEvt = false := by
  induction cs with
  | nil => rfl
  | cons c cs ih => simp [StreamEvent.isErrorEvt, ih]

/-- Helper: a schema-stage failure in the RAG flow reaches the catch block:
the run ends with the typed user-facing error event and persists exactly one
entry, with error status. -/
theorem askStreamRag_schema_error (env : OrchEnv) (query : String) (chatId : Option Nat)
    (ctxTime : Nat) (cd : String) (evts0 : List StreamEvent) (m : String)
    (hs : env.schemaResult = .error (.schemaRetrieval m))
    (hlog : ∀ e, env.createLog e = none) :
    (askStreamRag env query chatId ctxTime cd evts0).events =
      (evts0 ++ [StreamEvent.status "Analyzing database schema..."]) ++
        [StreamEvent.error ("Error: " ++ m)] ∧
    ((askStreamRag env query chatId ctxTime cd evts0).logs.map LogEntry.status) =
      [LogStatus.error] := by
  unfold askStreamRag
  rw [hs]
  simp [askStreamCatch, hlog, SQLAssistantError.isTyped, SQLAssistantError.message]

/-- Helper: a failure of the gateway stream during response generation in
the RAG flow is absorbed inside the composer: no error-kind event is
yielded, the failure text is delivered as a wrapped content chunk, and the
single persisted entry has success status. -/
theorem askStreamRag_stream_error_absorbed (env : OrchEnv) (query : String)
    (chatId : Option Nat) (ctxTime : Nat) (cd : String) (evts0 : List StreamEvent)
    (m s sql : String) (rows : List DbRow) (t : Nat)
    (hs : env.schemaResult = .ok s)
    (hq : env.queryResult = .ok ⟨sql, rows, t⟩)
    (hnr : sql ≠ "NO_RELEVANT_DATA")
    (hre : rows.isEmpty = false)
    (hfail : env.rowsStream.failMsg = some m)
    (hlog : ∀ e, env.createLog e = none)
    (h0 : evts0.any StreamEvent.isErrorEvt = false) :
    (askStreamRag env query chatId ctxTime cd evts0).events.any StreamEvent.isErrorEvt
      = false ∧
    StreamEvent.content (.chunk (.text
      ("Error generating response: Failed to generate content stream: " ++ m))) ∈
      (askStreamRag env query chatId ctxTime cd evts0).events ∧
    ((askStreamRag env query chatId ctxTime cd evts0).logs.map LogEntry.status) =
      [LogStatus.success] := by
  have hx : RChunk.text
      ("Error generating response: Failed to generate content stream: " ++ m) ∈
      ResponseService.generateResponseStream env.rowsStream := by
    unfold ResponseService.generateResponseStream ResponseService.streamChunks
      AIService.streamError
    rw [hfail]
    refine List.mem_append_right _ ?_
    exact List.mem_singleton.mpr (by rfl)
  unfold askStreamRag
  rw [hs, hq]
  simp only [hnr, hre, ite_false, if_false, Bool.false_eq_true, hlog]
  refine ⟨?_, ?_, ?_⟩
  · simp [List.any_append, content_map_no_error, h0, StreamEvent.isErrorEvt]
  · refine List.mem_append_left _ ?_
    refine List.mem_append_right _ ?_
    exact List.mem_map_of_mem _ hx
  · rfl

/-- Helper: a failure of `generateAndExecute` — a `QueryExecutionError`, a
`DatabaseConnectionError`, or an `AIServiceError` raised during SQL
generation — reaches the catch block of the RAG flow: the run ends with the
rendered error event (the typed kinds as `Error: …`, any other kind through
the generic unexpected-error branch) and persists exactly one entry, with
error status. -/
theorem askStreamRag_query_error (env : OrchEnv) (query : String) (chatId : Option Nat)
    (ctxTime : Nat) (cd : String) (evts0 : List StreamEvent) (s : String)
    (e : SQLAssistantError)
    (hs : env.schemaResult = .ok s)
    (hq : env.queryResult = .error e)
    (hlog : ∀ x, env.createLog x = none) :
    (askStreamRag env query chatId ctxTime cd evts0).events =
      ((evts0 ++ [StreamEvent.status "Analyzing database schema..."]) ++
        [StreamEvent.status "Generating SQL query..."]) ++
        [if e.isTyped then StreamEvent.error ("Error: " ++ e.message)
         else StreamEvent.error ("An unexpected error occurred: " ++ e.message)] ∧
    ((askStreamRag env query chatId ctxTime cd evts0).logs.map LogEntry.status) =
      [LogStatus.error] := by
  unfold askStreamRag
  rw [hs, hq]
  simp [askStreamCatch, hlog]

/-- Claim C5, amended: every failure raised before response streaming
propagates to the orchestrator catch.  The schema stage raises
`SchemaRetrievalError`; the query stage can surface a `QueryExecutionError`,
a `DatabaseConnectionError`, or an `AIServiceError` raised during SQL
generation — the kinds in the orchestrator instanceof list are rendered as
the user-facing `Error: …` event, an AI-service failure through the generic
unexpected-error branch; in every case the run ends with that error event
and persists one entry with error status.  But an AI-service failure during
streamed response generation never reaches the orchestrator: the composer
catches it, yields its text as one more wrapped content chunk, no
error-kind event is emitted, and the single persisted entry has success
status. -/
theorem C5_amended_error_propagation :
    (∀ (env : OrchEnv) (query chatHistory : String) (cid : Option Nat) (m : String),
      env.schemaResult = .error (.schemaRetrieval m) →
      ((jsTrim chatHistory).data.isEmpty = true ∨
        (ContextEvaluationService.evaluateContext env.ctxEnv query
          chatHistory).evaluation.decision ≠ .sufficient) →
      (∀ e, env.createLog e = none) →
      (SQLAssistantService.askStream env query chatHistory cid).events.getLast? =
        some (StreamEvent.error ("Error: " ++ m)) ∧
      ((SQLAssistantService.askStream env query chatHistory cid).logs.map
        LogEntry.status) = [LogStatus.error]) ∧
    (∀ (env : OrchEnv) (query chatHistory : String) (cid : Option Nat) (s : String)
        (e : SQLAssistantError),
      env.schemaResult = .ok s →
      env.queryResult = .error e →
      ((jsTrim chatHistory).data.isEmpty = true ∨
        (ContextEvaluationService.evaluateContext env.ctxEnv query
          chatHistory).evaluation.decision ≠ .sufficient) →
      (∀ x, env.createLog x = none) →
      (SQLAssistantService.askStream env query chatHistory cid).events.getLast? =
        some (if e.isTyped then StreamEvent.error ("Error: " ++ e.message)
              else StreamEvent.error ("An unexpected error occurred: " ++ e.message)) ∧
      ((SQLAssistantService.askStream env query chatHistory cid).logs.map
        LogEntry.status) = [LogStatus.error]) ∧
    (∀ (env : OrchEnv) (query chatHistory : String) (cid : Option Nat)
        (m s sql : String) (rows : List DbRow) (t : Nat),
      env.schemaResult = .ok s →
      env.queryResult = .ok ⟨sql, rows, t⟩ →
      sql ≠ "NO_RELEVANT_DATA" →
      rows.isEmpty = false →
      env.rowsStream.failMsg = some m →
      ((jsTrim chatHistory).data.isEmpty = true ∨
        (ContextEvaluationService.evaluateContext env.ctxEnv query
          chatHistory).evaluation.decision ≠ .sufficient) →
      (∀ e, env.createLog e = none) →
      (SQLAssistantService.askStream env query chatHistory cid).events.any
        StreamEvent.isErrorEvt = false ∧
      StreamEvent.content (.chunk (.text
        ("Error generating response: Failed to generate content stream: " ++ m))) ∈
        (SQLAssistantService.askStream env query chatHistory cid).events ∧
      ((SQLAssistantService.askStream env query chatHistory cid).logs.map
        LogEntry.status) = [LogStatus.success]) := by
  refine ⟨?_, ?_, ?_⟩
  · intro env query chatHistory cid m hs hside hlog
    unfold SQLAssistantService.askStream
    cases hh2 : (jsTrim chatHistory).data.isEmpty with
    | true =>
      simp only [ite_true]
      rcases askStreamRag_schema_error env query cid 0 "" [] m hs hlog with ⟨hev, hlg⟩
      refine ⟨?_, hlg⟩
      rw [hev]
      exact getLast?_snoc _ _
    | false =>
      have hd : (ContextEvaluationService.evaluateContext env.ctxEnv query
          chatHistory).evaluation.decision ≠ .sufficient := by
        rcases hside with hh | hd
        · rw [hh2] at hh
          cases hh
        · exact hd
      simp only [Bool.false_eq_true, ite_false, if_neg hd]
      rcases askStreamRag_schema_error env query cid env.ctxDuration _
        [StreamEvent.status "Evaluating context..."] m hs hlog with ⟨hev, hlg⟩
      refine ⟨?_, hlg⟩
      rw [hev]
      exact getLast?_snoc _ _
  · intro env query chatHistory cid s e hs hq hside hlog
    unfold SQLAssistantService.askStream
    cases hh2 : (jsTrim chatHistory).data.isEmpty with
    | true =>
      simp only [ite_true]
      rcases askStreamRag_query_error env query cid 0 "" [] s e hs hq hlog with ⟨hev, hlg⟩
      refine ⟨?_, hlg⟩
      rw [hev]
      exact getLast?_snoc _ _
    | false =>
      have hd : (ContextEvaluationService.evaluateContext env.ctxEnv query
          chatHistory).evaluation.decision ≠ .sufficient := by
        rcases hside with hh | hd
        · rw [hh2] at hh
          cases hh
        · exact hd
      simp only [Bool.false_eq_true, ite_false, if_neg hd]
      rcases askStreamRag_query_error env query cid env.ctxDuration _
        [StreamEvent.status "Evaluating context..."] s e hs hq hlog with ⟨hev, hlg⟩
      refine ⟨?_, hlg⟩
      rw [hev]
      exact getLast?_snoc _ _
  · intro env query chatHistory cid m s sql rows t hs hq hnr hre hfail hside hlog
    unfold SQLAssistantService.askStream
    cases hh2 : (jsTrim chatHistory).data.isEmpty with
    | true =>
      simp only [ite_true]
      exact askStreamRag_stream_error_absorbed env query cid 0 "" [] m s sql rows t
        hs hq hnr hre hfail hlog rfl
    | false =>
      have hd : (ContextEvaluationService.evaluateContext env.ctxEnv query
          chatHistory).evaluation.decision ≠ .sufficient := by
        rcases hside with hh | hd
        · rw [hh2] at hh
          cases hh
        · exact hd
      simp only [Bool.false_eq_true, ite_false, if_neg hd]
      exact askStreamRag_stream_error_absorbed env query cid env.ctxDuration _
        [StreamEvent.status "Evaluating context..."] m s sql rows t
        hs hq hnr hre hfail hlog rfl

/-- The successful run with a failing schema stage. -/
def envC5a : OrchEnv := { envC2ok with schemaResult := .error (.schemaRetrieval "db gone") }

/-- The successful run whose response stream fails after one text chunk. -/
def envC5b : OrchEnv :=
  { envC2ok with rowsStream := ⟨[⟨some "partial", []⟩], some "socket hangup"⟩ }

/-- The successful run whose query stage raises a `QueryExecutionError`. -/
def envC5c : OrchEnv :=
  { envC2ok with
    queryResult := .error (.queryExecution "Query execution failed: boom" (some "SELECT 2")) }

/-- The successful run whose query stage raises a `DatabaseConnectionError`. -/
def envC5d : OrchEnv :=
  { envC2ok with queryResult := .error (.databaseConnection "connection refused") }

/-- The successful run whose SQL generation raises an `AIServiceError`. -/
def envC5e : OrchEnv :=
  { envC2ok with queryResult := .error (.aiService "Failed to generate content: quota") }

/-- Witness for C5 (amended): the failing schema stage, the three
query-stage failure kinds, and the absorbed response-stream failure, each
on a concrete run. -/
theorem C5_amended_error_propagation_witness :
    ((SQLAssistantService.askStream envC5a "q" "" none).events.getLast? =
      some (StreamEvent.error ("Error: " ++ "db gone")) ∧
      ((SQLAssistantService.askStream envC5a "q" "" none).logs.map LogEntry.status) =
        [LogStatus.error]) ∧
    ((SQLAssistantService.askStream envC5c "q" "" none).events.getLast? =
      some (StreamEvent.error ("Error: " ++ "Query execution failed: boom")) ∧
      ((SQLAssistantService.askStream envC5c "q" "" none).logs.map LogEntry.status) =
        [LogStatus.error]) ∧
    ((SQLAssistantService.askStream envC5d "q" "" none).events.getLast? =
      some (StreamEvent.error ("Error: " ++ "connection refused")) ∧
      ((SQLAssistantService.askStream envC5d "q" "" none).logs.map LogEntry.status) =
        [LogStatus.error]) ∧
    ((SQLAssistantService.askStream envC5e "q" "" none).events.getLast? =
      some (StreamEvent.error ("An unexpected error occurred: " ++
        "Failed to generate content: quota")) ∧
      ((SQLAssistantService.askStream envC5e "q" "" none).logs.map LogEntry.status) =
        [LogStatus.error]) ∧
    ((SQLAssistantService.askStream envC5b "q" "" none).events.any
      StreamEvent.isErrorEvt = false ∧
      StreamEvent.content (.chunk (.text
        ("Error generating response: Failed to generate content stream: " ++
          "socket hangup"))) ∈
        (SQLAssistantService.askStream envC5b "q" "" none).events ∧
      ((SQLAssistantService.askStream envC5b "q" "" none).logs.map LogEntry.status) =
        [LogStatus.success]) :=
  ⟨C5_amended_error_propagation.1 envC5a "q" "" none "db gone" rfl (Or.inl rfl)
      (fun _ => rfl),
    C5_amended_error_propagation.2.1 envC5c "q" "" none "S"
      (.queryExecution "Query execution failed: boom" (some "SELECT 2")) rfl rfl
      (Or.inl rfl) (fun _ => rfl),
    C5_amended_error_propagation.2.1 envC5d "q" "" none "S"
      (.databaseConnection "connection refused") rfl rfl (Or.inl rfl) (fun _ => rfl),
    C5_amended_error_propagation.2.1 envC5e "q" "" none "S"
      (.aiService "Failed to generate content: quota") rfl rfl (Or.inl rfl)
      (fun _ => rfl),
    C5_amended_error_propagation.2.2 envC5b "q" "" none "socket hangup" "S" "SELECT 1"
      [[("a", some "1")]] 5 rfl rfl (by decide) rfl rfl (Or.inl rfl) (fun _ => rfl)⟩

/-- The tool-call arguments of the C7 run. -/
def argsChart : ToolArgs := ⟨[("type", "bar"), ("title", "Orders")]⟩

/-- The successful run in which the model invokes `generate_chart` while
also streaming text. -/
def envC7 : OrchEnv :=
  { envC2ok with
    rowsStream := ⟨[⟨some "Here is the chart", [("generate_chart", argsChart)]⟩], none⟩ }

/-- Claim C7: in the run `envC7` the model invokes the `generate_chart` tool
(the composer yields a chart chunk carrying its arguments), yet the
orchestrator event sequence contains no `chart`-kind event: the loop of
`askStream` wraps every chunk — chart chunks included — into a
`content`-kind event whose payload is the whole chunk object
(src/services/sql-assistant/sql-assistant.service.ts lines 343-352), even
though the `StreamEventType` enum declares a `chart` kind and `StreamEvent`
types `content` as a string. -/
theorem C7_chart_surfaced_as_content_event :
    RChunk.chart argsChart ∈ ResponseService.generateResponseStream envC7.rowsStream ∧
    (SQLAssistantService.askStream envC7 "q" "" none).events =
      [.status "Analyzing database schema...", .status "Generating SQL query...",
       .status "Executing SQL query...", .status "Formulating response...",
       .content (.chunk (.text "Here is the chart")),
       .content (.chunk (.chart argsChart)),
       .metadata (some "SELECT 1") (some 1) false, .done "Done"] ∧
    (SQLAssistantService.askStream envC7 "q" "" none).events.any
      StreamEvent.isChartEvt = false :=
  ⟨by decide, rfl, rfl⟩

/-- The buffered environment whose evaluator, were it consulted, would
answer `SUFFICIENT`. -/
def envC10 : AskEnv where
  ctxEnv := ⟨fun _ _ => .ok "DECISION: SUFFICIENT\nREASONING: history answers it"⟩
  schemaResult := .ok "S"
  queryResult := .ok ⟨"SELECT 1", [[("a", some "1")]], 3⟩
  respondResult := .ok "answer"

/-- Claim C10 counterexample: a buffered `ask` call with non-empty history
whose evaluator would decide `SUFFICIENT` still performs schema retrieval
and SQL generation, answers from the query rows, and never invokes the
context evaluator — the buffered path has no context-evaluation stage at
all. -/
theorem C10_counterexample_buffered_skips_evaluator :
    (ContextEvaluationService.evaluateContext envC10.ctxEnv "q"
      "earlier data").evaluation.decision = .sufficient ∧
    SQLAssistantService.ask envC10 "q" "earlier data" =
      ("answer", [.schemaFetch, .sqlGenExec, .respGen]) ∧
    Stage.ctxEval ∉ (SQLAssistantService.ask envC10 "q" "earlier data").2 :=
  ⟨rfl, rfl, by decide⟩

/-- Claim C10, amended: only the streaming path sequences the Context
Sufficiency Evaluator.  Every buffered `ask` run, whatever its history,
starts with the schema fetch and never invokes the evaluator; every
streaming run with non-empty history starts by yielding the
context-evaluation status event. -/
theorem C10_amended_only_streaming_evaluates :
    (∀ (env : AskEnv) (query chatHistory : String),
      Stage.ctxEval ∉ (SQLAssistantService.ask env query chatHistory).2 ∧
      (SQLAssistantService.ask env query chatHistory).2.head? = some Stage.schemaFetch) ∧
    (∀ (env : OrchEnv) (query chatHistory : String) (cid : Option Nat),
      (jsTrim chatHistory).data.isEmpty = false →
      (SQLAssistantService.askStream env query chatHistory cid).events.head? =
        some (StreamEvent.status "Evaluating context...")) := by
  constructor
  · intro env query chatHistory
    unfold SQLAssistantService.ask
    cases hs : env.schemaResult with
    | error e =>
      exact ⟨by show Stage.ctxEval ∉ [Stage.schemaFetch]; decide, rfl⟩
    | ok s =>
      cases hq : env.queryResult with
      | error e =>
        exact ⟨by show Stage.ctxEval ∉ [Stage.schemaFetch, Stage.sqlGenExec]; decide, rfl⟩
      | ok out =>
        by_cases h1 : out.sql = "NO_RELEVANT_DATA"
        · simp only [if_pos h1]
          exact ⟨by show Stage.ctxEval ∉ [Stage.schemaFetch, Stage.sqlGenExec]; decide, rfl⟩
        · simp only [if_neg h1]
          cases h2 : out.rows.isEmpty with
          | true =>
            simp only [ite_true]
            exact ⟨by show Stage.ctxEval ∉ [Stage.schemaFetch, Stage.sqlGenExec]; decide, rfl⟩
          | false =>
            simp only [Bool.false_eq_true, ite_false]
            cases hr : env.respondResult with
            | error e =>
              exact ⟨by
                show Stage.ctxEval ∉ [Stage.schemaFetch, Stage.sqlGenExec, Stage.respGen]
                decide, rfl⟩
            | ok r =>
              exact ⟨by
                show Stage.ctxEval ∉ [Stage.schemaFetch, Stage.sqlGenExec, Stage.respGen]
                decide, rfl⟩
  · intro env query chatHistory cid hh
    unfold SQLAssistantService.askStream askStreamRag askStreamCatch
    simp only [hh, Bool.false_eq_true, ite_false]
    repeat' split
    all_goals simp

/-- Witness for C10 (amended): the concrete buffered run with non-empty
history, and a concrete streaming run with non-empty history. -/
theorem C10_amended_only_streaming_evaluates_witness :
    (Stage.ctxEval ∉ (SQLAssistantService.ask envC10 "q" "earlier data").2 ∧
      (SQLAssistantService.ask envC10 "q" "earlier data").2.head? =
        some Stage.schemaFetch) ∧
    (SQLAssistantService.askStream envC2ok "q" "earlier data" none).events.head? =
      some (StreamEvent.status "Evaluating context...") :=
  ⟨C10_amended_only_streaming_evaluates.1 envC10 "q" "earlier data",
   C10_amended_only_streaming_evaluates.2 envC2ok "q" "earlier data" none rfl⟩

/-- Claim C5 counterexample: in the run `envC5b` the gateway stream fails
with `socket hangup` during response generation, yet the run emits no
error-kind event and persists a success-status entry — the failure never
propagates to the orchestrator, which the claim requires. -/
theorem C5_counterexample_stream_failure_logged_success :
    (SQLAssistantService.askStream envC5b "q" "" none).events.any
      StreamEvent.isErrorEvt = false ∧
    ((SQLAssistantService.askStream envC5b "q" "" none).logs.map LogEntry.status) =
      [LogStatus.success] ∧
    StreamEvent.content (.chunk (.text
      "Error generating response: Failed to generate content stream: socket hangup")) ∈
      (SQLAssistantService.askStream envC5b "q" "" none).events :=
  ⟨rfl, rfl, by decide⟩
